import Mathlib

/-!
Verification of `riak/transports/tcp/connection.py` (class `TcpConnection`),
the TCP transport layer of the riak-python-client.

Shallow embedding conventions:
- bytes are `Nat` values; a byte buffer is a `List Nat`;
- the socket's read side is a `ByteStream`: a schedule of chunks, where each
  `recv_into` call delivers (a prefix of) the head chunk and an exhausted
  schedule models an orderly-closed stream (`recv` returning 0 bytes);
- each Python `raise` site is one constructor of `RErr` carrying the data
  that the exception message interpolates;
- the `while` loop of `_recv_pkt` is embedded with explicit fuel: a `none`
  result means the loop was still running when the fuel ran out, for every
  fuel bound;
- the external protobuf codec (`riak.pb.riak_pb2`) and the erlastic codec
  are collaborators outside this module: a decoded structured body is
  modelled as the message code together with the raw payload handed to the
  decoder, and a decoded native term as the raw payload handed to
  `erlastic.decode`.
-/

namespace RiakTcp

/-- One Python `raise` site of `connection.py`, with the data interpolated
into its exception message.  `remoteError` is `RiakError(bytes_to_str(err.errmsg))`,
`noErrorProvided` is `RiakError('no error provided!')`, `unknownMsgCode` is
`Exception("unknown msg code %s")`, `unexpectedMsgCode` is
`RiakError("unexpected protocol buffer message code: %d, %r")`,
`ttbCantParse` is `RiakError("TTB can't parse code: %d")`, `shortHeader` is
`RiakError("Socket returned short packet length %d - expected 4")`,
`shortRead` is `RiakError("Socket returned short packet %d - expected %d")`,
`couldNotSwitchTtb` is `RiakError('could not switch to TTB encoding!')`,
`securityError` is `SecurityError(...)`, and `structError` is the
`struct.error` that `struct.unpack("B", ...)` raises on an empty buffer. -/
inductive RErr where
  | remoteError (errmsg : List Nat)
  | noErrorProvided
  | unknownMsgCode (code : Nat)
  | unexpectedMsgCode (code : Nat)
  | ttbCantParse (code : Nat)
  | shortHeader (got : Nat)
  | shortRead (got : Nat) (expected : Nat)
  | couldNotSwitchTtb
  | securityError (msg : String)
  | structError
  deriving DecidableEq, Repr

/-- Result of an embedded Python call: a value or a raised exception. -/
inductive Res (α : Type) where
  | ok (a : α)
  | err (e : RErr)
  deriving DecidableEq, Repr

/-- The read side of a socket: the schedule of chunks that successive
`recv_into` calls will deliver.  An empty schedule is an orderly-closed
stream: every further `recv_into` returns 0 bytes. -/
structure ByteStream where
  chunks : List (List Nat)
  deriving DecidableEq, Repr

/-- One `self._socket.recv_into(buf, bufsize)` call: delivers at most
`bufsize` bytes from the head chunk (the rest of the chunk stays queued),
and delivers 0 bytes on a closed (exhausted) stream. -/
def recvInto (s : ByteStream) (bufsize : Nat) : List Nat × ByteStream :=
  match s.chunks with
  | [] => ([], ⟨[]⟩)
  | c :: rest =>
      if c.length ≤ bufsize then (c, ⟨rest⟩)
      else (c.take bufsize, ⟨c.drop bufsize :: rest⟩)

/-- Big-endian interpretation of a 4-byte buffer, as in
`struct.unpack('!I', msglen_buf)`. -/
def fromBE4 (b : List Nat) : Nat :=
  match b with
  | [a, b, c, d] => ((a * 256 + b) * 256 + c) * 256 + d
  | _ => 0

/-- Big-endian 4-byte encoding of a length, as in `struct.pack("!i", n)`
for the non-negative lengths the code produces. -/
def be4 (n : Nat) : List Nat :=
  [n / 2 ^ 24 % 256, n / 2 ^ 16 % 256, n / 2 ^ 8 % 256, n % 256]

/-- The body-read loop of `_recv_pkt` (lines 223-229):
`while toread: nbytes = recv_into(view, toread); view = view[nbytes:];
toread -= nbytes; nread += nbytes`, with explicit fuel.  `none` means
the loop was still running when the fuel ran out. -/
def recvBody (fuel : Nat) (s : ByteStream) (toread : Nat) (acc : List Nat) :
    Option (List Nat × ByteStream) :=
  if toread = 0 then some (acc, s)
  else
    match fuel with
    | 0 => none
    | fuel' + 1 =>
        let r := recvInto s toread
        recvBody fuel' r.2 (toread - r.1.length) (acc ++ r.1)

/-- `TcpConnection._recv_pkt` (lines 209-233): one `recv_into` of the 4-byte
length header (raising the short-header `RiakError` when that single call
returns fewer than 4 bytes), then the body loop, then the short-packet check.
`none` means the body loop ran out of fuel without terminating. -/
def recv_pkt (fuel : Nat) (s : ByteStream) :
    Option (Res (List Nat × ByteStream)) :=
  let h := recvInto s 4
  if h.1.length ≠ 4 then some (.err (.shortHeader h.1.length))
  else
    let msglen := fromBE4 h.1
    match recvBody fuel h.2 msglen [] with
    | none => none
    | some (body, s') =>
        if body.length ≠ msglen then some (.err (.shortRead body.length msglen))
        else some (.ok (body, s'))

/-- `riak.pb.messages.MSG_CODE_ERROR_RESP` (the reserved error kind). -/
def MSG_CODE_ERROR_RESP : Nat := 0

/-- `riak.pb.messages.MSG_CODE_PING_RESP`. -/
def MSG_CODE_PING_RESP : Nat := 2

/-- `riak.pb.messages.MSG_CODE_GET_RESP`. -/
def MSG_CODE_GET_RESP : Nat := 10

/-- `riak.pb.messages.MSG_CODE_TS_PUT_RESP`. -/
def MSG_CODE_TS_PUT_RESP : Nat := 93

/-- `riak.pb.messages.MSG_CODE_TS_GET_RESP`. -/
def MSG_CODE_TS_GET_RESP : Nat := 95

/-- `riak.pb.messages.MSG_CODE_TOGGLE_ENCODING_REQ`. -/
def MSG_CODE_TOGGLE_ENCODING_REQ : Nat := 122

/-- `riak.pb.messages.MSG_CODE_TOGGLE_ENCODING_RESP`. -/
def MSG_CODE_TOGGLE_ENCODING_RESP : Nat := 123

/-- `riak.pb.messages.MSG_CODE_AUTH_REQ`. -/
def MSG_CODE_AUTH_REQ : Nat := 253

/-- `riak.pb.messages.MSG_CODE_AUTH_RESP`. -/
def MSG_CODE_AUTH_RESP : Nat := 254

/-- `riak.pb.messages.MSG_CODE_START_TLS`. -/
def MSG_CODE_START_TLS : Nat := 255

/-- Modelled from the spec: the external "Message Codec Registry"
(`riak.pb.messages.MESSAGE_CLASSES`, not part of the supplied source),
which "maps a message-kind identifier to an encoder/decoder for the
structured encoding" and "supplies decode-or-reject behavior for unknown
kinds".  Each entry pairs a registered message code with whether the
registry holds a protobuf class for it (`false` models an entry whose
class is Python `None`, used for body-less signal messages such as
STARTTLS).  The catalog itself is out of the spec's scope; this list keeps
the codes the transport layer manipulates plus representative data codes. -/
def MESSAGE_CLASSES : List (Nat × Bool) :=
  [(MSG_CODE_ERROR_RESP, true), (1, false), (MSG_CODE_PING_RESP, false),
   (9, true), (MSG_CODE_GET_RESP, true), (11, true), (12, true),
   (MSG_CODE_TS_PUT_RESP, true), (94, true), (MSG_CODE_TS_GET_RESP, true),
   (MSG_CODE_TOGGLE_ENCODING_REQ, true), (MSG_CODE_TOGGLE_ENCODING_RESP, true),
   (MSG_CODE_AUTH_REQ, true), (MSG_CODE_AUTH_RESP, true),
   (MSG_CODE_START_TLS, false)]

/-- `code in riak.pb.messages.MESSAGE_CLASSES` membership test. -/
def isRegistered (code : Nat) : Bool :=
  (MESSAGE_CLASSES.lookup code).isSome

/-- A decoded message body: either the result of handing `raw` to the
structured (protobuf) decoder registered for `code`, or the result of
handing `raw` to `erlastic.decode`.  Both decoders are external
collaborators, so the decoded value is represented by the bytes given to
the decoder. -/
inductive Body where
  | pb (code : Nat) (raw : List Nat)
  | term (raw : List Nat)
  deriving DecidableEq, Repr

/-- The `errmsg` field that the structured codec extracts from a decoded
reserved-error-kind body (`err.errmsg`); the extraction itself lives in the
external codec, so it is carried as the decoded payload bytes. -/
def Body.errmsg : Body → List Nat
  | .pb _ raw => raw
  | .term raw => raw

/-- `TcpConnection._parse_msg` (lines 253-273).  In TTB mode, only the two
time-series response codes are decodable and an empty packet yields no
body; in structured mode, a registry miss or a `None` class yields no
body, otherwise the packet is handed to the registered protobuf class. -/
def parse_msg (code : Nat) (packet : List Nat) (is_ttb : Bool) :
    Res (Option Body) :=
  if is_ttb then
    if code ≠ MSG_CODE_TS_GET_RESP ∧ code ≠ MSG_CODE_TS_PUT_RESP then
      .err (.ttbCantParse code)
    else if packet.length > 0 then .ok (some (.term packet))
    else .ok none
  else
    match MESSAGE_CLASSES.lookup code with
    | none => .ok none
    | some false => .ok none
    | some true => .ok (some (.pb code packet))

/-- Python truthiness of the `expect` argument in
`if expect and msg_code != expect:`: `None` and `0` are both falsy. -/
def expectTruthy (expect : Option Nat) : Bool :=
  match expect with
  | none => false
  | some e => e ≠ 0

/-- `TcpConnection._recv_msg` (lines 187-207) applied to an already-received
frame body `msgbuf` (the result of `_recv_pkt`): unpack the leading kind
byte, dispatch on the reserved error kind / registered kinds / unknown
kinds, then apply the expected-kind check.  (`msg_code is MSG_CODE_ERROR_RESP`
behaves as equality for the cached small ints produced by `struct.unpack`.) -/
def recv_msg_buf (msgbuf : List Nat) (expect : Option Nat) (is_ttb : Bool) :
    Res (Nat × Option Body) :=
  match msgbuf with
  | [] => .err .structError
  | msg_code :: rest =>
      if msg_code = MSG_CODE_ERROR_RESP then
        match parse_msg msg_code rest is_ttb with
        | .err e => .err e
        | .ok none => .err .noErrorProvided
        | .ok (some b) => .err (.remoteError b.errmsg)
      else if isRegistered msg_code then
        match parse_msg msg_code rest is_ttb with
        | .err e => .err e
        | .ok msg =>
            if expectTruthy expect ∧ expect ≠ some msg_code then
              .err (.unexpectedMsgCode msg_code)
            else .ok (msg_code, msg)
      else .err (.unknownMsgCode msg_code)

/-- `TcpConnection._starttls` (lines 78-88), as a function of the frame body
the peer sends in reply to the bare STARTTLS signal message: returns whether
the reply kind equals the STARTTLS kind, propagating anything `_recv_msg`
raises (the request is sent with `expect=None` and structured decoding). -/
def starttls (replyBuf : List Nat) : Res Bool :=
  match recv_msg_buf replyBuf none false with
  | .err e => .err e
  | .ok (msg_code, _) => .ok (msg_code = MSG_CODE_START_TLS)

/-- Outcome of the STARTTLS step of `_init_security` (lines 67-74): either
control reached the `self._ssl_handshake()` call (a TLS upgrade was
attempted), or the handshake failed before any TLS upgrade. -/
inductive SecOutcome where
  | tlsUpgradeAttempted
  | failed (e : RErr)
  deriving DecidableEq, Repr

/-- The STARTTLS phase of `TcpConnection._init_security` (lines 67-74):
`if not self._starttls(): raise SecurityError("Could not start TLS connection")`,
after which (and only after which) `_ssl_handshake()` is attempted. -/
def init_security_starttls (replyBuf : List Nat) : SecOutcome :=
  match starttls replyBuf with
  | .err e => .failed e
  | .ok true => .tlsUpgradeAttempted
  | .ok false => .failed (.securityError "Could not start TLS connection")

/-- Result of one `TcpConnection._enable_ttb` call (lines 90-106): the value
returned (or exception raised), the value of `self._ttb_enabled` afterwards,
and how many wire round-trips (`_non_connect_request` calls) the call
performed. -/
structure TtbCall where
  ret : Res Bool
  flag : Bool
  exchanges : Nat
  deriving DecidableEq, Repr

/-- `TcpConnection._enable_ttb` (lines 90-106) as a function of the current
`self._ttb_enabled` flag and of the frame body the peer sends in reply to
the toggle-encoding request.  When the flag is already set it returns
`True` with no wire traffic; otherwise it performs one
`_non_connect_request` with
`expect=MSG_CODE_TOGGLE_ENCODING_RESP` (structured decoding) and sets the
flag only on a toggle-response reply. -/
def enable_ttb (ttbEnabled : Bool) (replyBuf : List Nat) : TtbCall :=
  if ttbEnabled then ⟨.ok true, true, 0⟩
  else
    match recv_msg_buf replyBuf (some MSG_CODE_TOGGLE_ENCODING_RESP) false with
    | .err e => ⟨.err e, false, 1⟩
    | .ok (msg_code, _) =>
        if msg_code = MSG_CODE_TOGGLE_ENCODING_RESP then ⟨.ok true, true, 1⟩
        else ⟨.ok false, false, 1⟩

/-- The TTB gate of `TcpConnection._send_msg` (lines 61-65):
`if is_ttb and not self._enable_ttb(): raise RiakError('could not switch to TTB encoding!')`;
an exception raised inside `_enable_ttb` propagates unchanged. -/
def send_msg_ttb_gate (ttbEnabled : Bool) (replyBuf : List Nat) : Res Unit :=
  match (enable_ttb ttbEnabled replyBuf).ret with
  | .err e => .err e
  | .ok false => .err .couldNotSwitchTtb
  | .ok true => .ok ()

/-- The per-connection state of `TcpConnection` that the lifecycle claims
concern: the underlying socket handle (`self._socket`, absent until
`_connect` establishes one and after `close` tears it down — the handle is
"absent until first use, present after successful connect, torn down on
close") and the `self._ttb_enabled` flag set by `__init__` (line 27).
Each established socket carries a serial number so that a reconnection is
visibly a fresh socket. -/
structure Conn where
  socket : Option Nat
  ttbEnabled : Bool
  deriving DecidableEq, Repr

/-- `TcpConnection.__init__` (lines 26-27) on a transport whose socket
attribute is still absent: `self._ttb_enabled = False`. -/
def init_conn : Conn := ⟨none, false⟩

/-- `TcpConnection._connect` (lines 235-243), socket-state part: when no
socket is present, establish a fresh one (with the next serial number);
nothing else in the state is touched — in particular `_ttb_enabled` is not
written.  (The credentials branch calls `_init_security`, embedded
separately as `init_security_starttls`; it does not touch the flag either.) -/
def connect (fresh : Nat) (c : Conn) : Conn :=
  match c.socket with
  | some _ => c
  | none => { c with socket := some fresh }

/-- `TcpConnection.close` (lines 245-251): `if self._socket:` close and
discard the handle, else do nothing. -/
def close (c : Conn) : Conn :=
  match c.socket with
  | some _ => { c with socket := none }
  | none => c

/-- State update performed by one `_enable_ttb` call on the connection:
`self._ttb_enabled` becomes the flag the call leaves behind. -/
def enable_ttb_state (c : Conn) (replyBuf : List Nat) : Conn :=
  { c with ttbEnabled := (enable_ttb c.ttbEnabled replyBuf).flag }

/-- `struct.pack("!iB", n, b)`: a 4-byte big-endian signed-range length
followed by one unsigned byte; `struct.error` (modelled as `none`) outside
the ranges of the format codes.  The code only ever passes non-negative
lengths. -/
def pack_iB (n : Nat) (b : Nat) : Option (List Nat) :=
  if n < 2 ^ 31 ∧ b < 256 then some (be4 n ++ [b]) else none

/-- `msg.SerializeToString()`: the external structured codec's wire output
for a message object, represented by the message's bytes. -/
def serializeToString (m : List Nat) : List Nat := m

/-- `TcpConnection._encode_msg` (lines 29-40).  An absent payload gives the
bare header `pack("!iB", 1, msg_code)`; otherwise the payload bytes (`msg`
itself in TTB mode, `msg.SerializeToString()` otherwise) follow a header
whose length field is `1 + datalen`. -/
def encode_msg (msg_code : Nat) (msg : Option (List Nat)) (is_ttb : Bool) :
    Option (List Nat) :=
  match msg with
  | none => pack_iB 1 msg_code
  | some m =>
      let data := if is_ttb then m else serializeToString m
      (pack_iB (1 + data.length) msg_code).map (· ++ data)

/-- The error branch of `_recv_msg` under structured decoding: the decoded
`RpbErrorResp` carries the payload handed to the codec, and `expect` is
never consulted. -/
theorem recv_msg_buf_error_structured (payload : List Nat) (expect : Option Nat) :
    recv_msg_buf (MSG_CODE_ERROR_RESP :: payload) expect false =
      .err (.remoteError payload) := rfl

/-- The error branch of `_recv_msg` under TTB decoding: `_parse_msg` rejects
the error code before any decode, so the raised error is the TTB parse
failure, and `expect` is never consulted. -/
theorem recv_msg_buf_error_ttb (payload : List Nat) (expect : Option Nat) :
    recv_msg_buf (MSG_CODE_ERROR_RESP :: payload) expect true =
      .err (.ttbCantParse MSG_CODE_ERROR_RESP) := rfl

/-- A registered, non-error reply read with `expect=None` is returned
normally with its own code. -/
theorem recv_msg_buf_none_registered (code : Nat) (rest : List Nat)
    (hr : isRegistered code = true) (h0 : code ≠ MSG_CODE_ERROR_RESP) :
    ∃ m, recv_msg_buf (code :: rest) none false = .ok (code, m) := by
  obtain ⟨b, hb⟩ := Option.isSome_iff_exists.mp hr
  cases b with
  | false =>
      exact ⟨none, by simp [recv_msg_buf, h0, isRegistered, hb, parse_msg, expectTruthy]⟩
  | true =>
      exact ⟨some (.pb code rest),
        by simp [recv_msg_buf, h0, isRegistered, hb, parse_msg, expectTruthy]⟩

/-- A registered, non-error reply whose code differs from a truthy `expect`
raises the unexpected-message-code `RiakError` inside `_recv_msg`. -/
theorem recv_msg_buf_expect_mismatch (code : Nat) (rest : List Nat) (e : Nat)
    (hr : isRegistered code = true) (h0 : code ≠ MSG_CODE_ERROR_RESP)
    (he : e ≠ 0) (hne : code ≠ e) :
    recv_msg_buf (code :: rest) (some e) false =
      .err (.unexpectedMsgCode code) := by
  obtain ⟨b, hb⟩ := Option.isSome_iff_exists.mp hr
  have hne' : some e ≠ some code := by
    intro hc
    exact hne (Option.some.inj hc).symm
  cases b with
  | false => simp [recv_msg_buf, h0, isRegistered, hb, parse_msg, expectTruthy, he, hne']
  | true => simp [recv_msg_buf, h0, isRegistered, hb, parse_msg, expectTruthy, he, hne']

/-- An unregistered, non-error reply raises the unknown-message-code
exception, whatever `expect` and the decoding mode are. -/
theorem recv_msg_buf_unregistered (code : Nat) (rest : List Nat)
    (expect : Option Nat) (ttb : Bool)
    (h0 : code ≠ MSG_CODE_ERROR_RESP) (hr : isRegistered code = false) :
    recv_msg_buf (code :: rest) expect ttb = .err (.unknownMsgCode code) := by
  simp [recv_msg_buf, h0, hr]

/-- When `_recv_msg` returns normally under a truthy `expect`, the returned
code equals the expected one (the mismatch branch raises). -/
theorem recv_msg_buf_expect_ok (buf : List Nat) (e : Nat) (ttb : Bool)
    (c : Nat) (m : Option Body) (he : e ≠ 0)
    (h : recv_msg_buf buf (some e) ttb = .ok (c, m)) : c = e := by
  match buf with
  | [] => simp [recv_msg_buf] at h
  | code :: rest =>
      simp only [recv_msg_buf] at h
      by_cases h0 : code = MSG_CODE_ERROR_RESP
      · rw [if_pos h0] at h
        cases hp : parse_msg code rest ttb with
        | err e' => simp [hp] at h
        | ok mo => cases mo <;> simp [hp] at h
      · rw [if_neg h0] at h
        by_cases hr : isRegistered code = true
        · rw [if_pos hr] at h
          cases hp : parse_msg code rest ttb with
          | err e' => simp [hp] at h
          | ok msg =>
              simp only [hp] at h
              by_cases hcond :
                  (expectTruthy (some e) = true ∧ (some e : Option Nat) ≠ some code)
              · rw [if_pos hcond] at h
                simp at h
              · rw [if_neg hcond] at h
                have hce : code = c := by
                  simpa using congrArg
                    (fun r => match r with
                      | Res.ok p => p.1
                      | Res.err _ => 0) h
                have het : expectTruthy (some e) = true := by
                  simp [expectTruthy, he]
                have : (some e : Option Nat) = some code := by
                  by_contra hne
                  exact hcond ⟨het, hne⟩
                rw [← hce]
                exact (Option.some.inj this).symm
        · rw [if_neg hr] at h
          simp at h

/-- On a closed stream the body loop of `_recv_pkt` makes no progress:
`recv_into` keeps returning 0 bytes, `toread` never decreases, and the loop
is still running whatever the fuel bound. -/
theorem recvBody_closed (fuel : Nat) : ∀ toread acc, toread ≠ 0 →
    recvBody fuel ⟨[]⟩ toread acc = none := by
  induction fuel with
  | zero =>
      intro toread acc h
      simp [recvBody, h]
  | succ n ih =>
      intro toread acc h
      rw [recvBody]
      rw [if_neg h]
      show recvBody n ⟨[]⟩ (toread - 0) (acc ++ []) = none
      rw [Nat.sub_zero, List.append_nil]
      exact ih toread acc h

/-- One step of the body loop on the stream that still holds the two-byte
chunk `[1, 2]` of a five-byte body. -/
theorem recvBody_step_closing (n : Nat) (acc : List Nat) :
    recvBody (n + 1) ⟨[[1, 2]]⟩ 5 acc = recvBody n ⟨[]⟩ 3 (acc ++ [1, 2]) := rfl

/-- Big-endian 4-byte round trip: `fromBE4 (be4 n) = n` below `2 ^ 32`. -/
theorem fromBE4_be4 (n : Nat) (h : n < 2 ^ 32) : fromBE4 (be4 n) = n := by
  simp only [fromBE4, be4]
  omega

/-- C1: counterexample — a STARTTLS reply of the reserved error kind makes
`_init_security` raise the decoded remote error, and a reply of a kind
unknown to the codec registry raises the unknown-message-code exception;
neither failure is `SecurityError("Could not start TLS connection")`,
contrary to the claim's "for every possible reply kind". -/
theorem starttls_error_reply_counterexample :
    init_security_starttls [MSG_CODE_ERROR_RESP, 101] =
      .failed (.remoteError [101]) ∧
    init_security_starttls [MSG_CODE_ERROR_RESP, 101] ≠
      .failed (.securityError "Could not start TLS connection") ∧
    init_security_starttls [200] = .failed (.unknownMsgCode 200) ∧
    init_security_starttls [200] ≠
      .failed (.securityError "Could not start TLS connection") :=
  ⟨rfl, by decide, rfl, by decide⟩

/-- C1 (amended): if the peer's STARTTLS reply has a registry-known kind
other than the reserved error kind and the STARTTLS kind, `_init_security`
fails with `SecurityError("Could not start TLS connection")`; and whenever
the reply's kind byte is not the STARTTLS kind — the reserved error kind
and registry-unknown kinds included — no TLS upgrade is attempted. -/
theorem starttls_refusal_security_error :
    (∀ code payload, isRegistered code = true → code ≠ MSG_CODE_ERROR_RESP →
        code ≠ MSG_CODE_START_TLS →
        init_security_starttls (code :: payload) =
          .failed (.securityError "Could not start TLS connection")) ∧
    (∀ replyBuf, replyBuf.head? ≠ some MSG_CODE_START_TLS →
        init_security_starttls replyBuf ≠ .tlsUpgradeAttempted) := by
  constructor
  · intro code payload hr h0 h255
    obtain ⟨m, hm⟩ := recv_msg_buf_none_registered code payload hr h0
    simp [init_security_starttls, starttls, hm, h255]
  · intro replyBuf hh
    cases replyBuf with
    | nil => decide
    | cons code rest =>
        have hcode : code ≠ MSG_CODE_START_TLS := by simpa using hh
        by_cases h0 : code = MSG_CODE_ERROR_RESP
        · subst h0
          simp [init_security_starttls, starttls, recv_msg_buf_error_structured]
        · by_cases hr : isRegistered code = true
          · obtain ⟨m, hm⟩ := recv_msg_buf_none_registered code rest hr h0
            simp [init_security_starttls, starttls, hm, hcode]
          · have hu := recv_msg_buf_unregistered code rest none false h0
              (by simpa using hr)
            simp [init_security_starttls, starttls, hu]

/-- C1 witness: the amended theorem at a registered ping-response reply. -/
theorem starttls_refusal_security_error_witness :
    isRegistered MSG_CODE_PING_RESP = true ∧
    init_security_starttls [MSG_CODE_PING_RESP] =
      .failed (.securityError "Could not start TLS connection") :=
  ⟨by decide, starttls_refusal_security_error.1 MSG_CODE_PING_RESP []
    (by decide) (by decide) (by decide)⟩

/-- C2: with the whole frame available but the 4-byte header delivered in a
2-byte chunk followed by the rest, `_recv_pkt` raises the short-header
error after its single header `recv_into`, while the same bytes in one
chunk yield the frame body: chunked delivery does not match single-chunk
delivery, and the short-header error fires though the stream has not
ended. -/
theorem recv_pkt_split_header_bug :
    recv_pkt 4 ⟨[[0, 0], [0, 2, 7, 88]]⟩ = some (.err (.shortHeader 2)) ∧
    recv_pkt 4 ⟨[[0, 0, 0, 2, 7, 88]]⟩ = some (.ok ([7, 88], ⟨[]⟩)) :=
  ⟨rfl, rfl⟩

/-- C3: when the stream closes after the header announced a five-byte body
and only two body bytes were delivered, the body loop of `_recv_pkt` never
terminates — for every fuel bound it is still running — so the short-read
error is never raised. -/
theorem recv_pkt_close_mid_body_diverges (fuel : Nat) :
    recv_pkt fuel ⟨[[0, 0, 0, 5], [1, 2]]⟩ = none := by
  cases fuel with
  | zero => rfl
  | succ n =>
      have h2 : recvBody (n + 1) ⟨[[1, 2]]⟩ 5 [] = none := by
        rw [recvBody_step_closing]
        exact recvBody_closed n 3 ([] ++ [1, 2]) (by decide)
      simp only [recv_pkt, recvInto]
      norm_num [fromBE4]
      rw [h2]

/-- C4: `_connect` never writes `_ttb_enabled`; after a successful TTB
negotiation, a `close()` and a reconnection that establishes a fresh
socket, the flag is still `True` rather than the reset to `False` that the
claim states. -/
theorem connect_reconnect_keeps_ttb_flag :
    (connect 2 (close (enable_ttb_state (connect 1 init_conn)
        [MSG_CODE_TOGGLE_ENCODING_RESP]))).socket = some 2 ∧
    (connect 2 (close (enable_ttb_state (connect 1 init_conn)
        [MSG_CODE_TOGGLE_ENCODING_RESP]))).ttbEnabled = true ∧
    (∀ c fresh, (connect fresh c).ttbEnabled = c.ttbEnabled) := by
  refine ⟨by decide, by decide, ?_⟩
  intro c fresh
  cases h : c.socket <;> simp [connect, h]

/-- C5: counterexample — under TTB decoding, a reserved-error-kind frame
makes `_recv_msg` raise the TTB parse failure, not a remote error carrying
the message text embedded in the payload. -/
theorem recv_msg_error_ttb_counterexample :
    recv_msg_buf [MSG_CODE_ERROR_RESP, 65] none true =
      .err (.ttbCantParse MSG_CODE_ERROR_RESP) ∧
    recv_msg_buf [MSG_CODE_ERROR_RESP, 65] none true ≠
      .err (.remoteError [65]) :=
  ⟨rfl, by decide⟩

/-- C5 (amended): a reserved-error-kind frame never reaches the caller as a
normal value, whatever `expect` is: under structured decoding `_recv_msg`
raises the remote error carrying the error message decoded from the
payload, and under TTB decoding it raises the TTB parse failure for the
error code. -/
theorem recv_msg_error_kind_always_raises (payload : List Nat)
    (expect : Option Nat) :
    recv_msg_buf (MSG_CODE_ERROR_RESP :: payload) expect false =
      .err (.remoteError payload) ∧
    recv_msg_buf (MSG_CODE_ERROR_RESP :: payload) expect true =
      .err (.ttbCantParse MSG_CODE_ERROR_RESP) :=
  ⟨recv_msg_buf_error_structured payload expect,
   recv_msg_buf_error_ttb payload expect⟩

/-- C6: counterexample — with the flag unset and a toggle-encoding reply of
a different registered kind, `_enable_ttb` propagates the unexpected-code
`RiakError` raised inside `_recv_msg` instead of returning `False`. -/
theorem enable_ttb_refusal_counterexample :
    (enable_ttb false [MSG_CODE_PING_RESP]).ret =
      .err (.unexpectedMsgCode MSG_CODE_PING_RESP) ∧
    (enable_ttb false [MSG_CODE_PING_RESP]).ret ≠ .ok false :=
  ⟨rfl, by decide⟩

/-- C6 (amended): with native-term mode inactive, any reply whose kind byte
is not the toggle-encoding response leaves `_ttb_enabled` unset and makes
`_enable_ttb` raise an error out of `_recv_msg` rather than return
`False`; `_send_msg` therefore surfaces that error and its
could-not-switch-to-TTB `RiakError` is unreachable. -/
theorem enable_ttb_refusal_raises (buf : List Nat)
    (h : buf.head? ≠ some MSG_CODE_TOGGLE_ENCODING_RESP) :
    (enable_ttb false buf).flag = false ∧
    ∃ e, (enable_ttb false buf).ret = .err e ∧
      send_msg_ttb_gate false buf = .err e ∧ e ≠ .couldNotSwitchTtb := by
  cases buf with
  | nil => exact ⟨rfl, .structError, rfl, rfl, by simp⟩
  | cons code rest =>
      have hcode : code ≠ MSG_CODE_TOGGLE_ENCODING_RESP := by simpa using h
      by_cases h0 : code = MSG_CODE_ERROR_RESP
      · subst h0
        have hm := recv_msg_buf_error_structured rest
          (some MSG_CODE_TOGGLE_ENCODING_RESP)
        exact ⟨by simp [enable_ttb, hm], .remoteError rest,
          by simp [enable_ttb, hm],
          by simp [send_msg_ttb_gate, enable_ttb, hm], by simp⟩
      · by_cases hr : isRegistered code = true
        · have hm := recv_msg_buf_expect_mismatch code rest
            MSG_CODE_TOGGLE_ENCODING_RESP hr h0 (by decide) hcode
          exact ⟨by simp [enable_ttb, hm], .unexpectedMsgCode code,
            by simp [enable_ttb, hm],
            by simp [send_msg_ttb_gate, enable_ttb, hm], by simp⟩
        · have hm := recv_msg_buf_unregistered code rest
            (some MSG_CODE_TOGGLE_ENCODING_RESP) false h0 (by simpa using hr)
          exact ⟨by simp [enable_ttb, hm], .unknownMsgCode code,
            by simp [enable_ttb, hm],
            by simp [send_msg_ttb_gate, enable_ttb, hm], by simp⟩

/-- C6 witness: the amended theorem at the concrete refusal reply of the
registered ping-response kind. -/
theorem enable_ttb_refusal_raises_witness :
    (enable_ttb false [MSG_CODE_PING_RESP]).flag = false ∧
    ∃ e, (enable_ttb false [MSG_CODE_PING_RESP]).ret = .err e ∧
      send_msg_ttb_gate false [MSG_CODE_PING_RESP] = .err e ∧
      e ≠ .couldNotSwitchTtb :=
  enable_ttb_refusal_raises [MSG_CODE_PING_RESP] (by decide)

/-- C7: `_enable_ttb` with the flag already set returns `True` at once with
no wire round-trip; after a first call that negotiated successfully (one
round-trip, flag set), a second call performs none, so two calls in a row
perform exactly one round-trip in total. -/
theorem enable_ttb_second_call_no_roundtrip (buf second : List Nat) :
    enable_ttb true buf = ⟨.ok true, true, 0⟩ ∧
    enable_ttb false [MSG_CODE_TOGGLE_ENCODING_RESP] = ⟨.ok true, true, 1⟩ ∧
    enable_ttb (enable_ttb false [MSG_CODE_TOGGLE_ENCODING_RESP]).flag second =
      ⟨.ok true, true, 0⟩ ∧
    (enable_ttb false [MSG_CODE_TOGGLE_ENCODING_RESP]).exchanges +
      (enable_ttb (enable_ttb false [MSG_CODE_TOGGLE_ENCODING_RESP]).flag
        second).exchanges = 1 :=
  ⟨rfl, rfl, rfl, rfl⟩

/-- C8: `_encode_msg` produces a frame whose 4-byte big-endian length field
equals 1 plus the payload length, followed by the kind byte and the
payload, in either encoding mode; an absent payload gives exactly the
5-byte frame with length field 1; and kind 7 with payload `"X"` gives the
wire bytes `00 00 00 02 07 58`. -/
theorem encode_msg_frame_format (code : Nat) (data : List Nat) (ttb : Bool)
    (hc : code < 256) (hd : 1 + data.length < 2 ^ 31) :
    encode_msg code (some data) ttb =
      some (be4 (1 + data.length) ++ code :: data) ∧
    fromBE4 (be4 (1 + data.length)) = 1 + data.length ∧
    (be4 (1 + data.length)).length = 4 ∧
    encode_msg code none ttb = some [0, 0, 0, 1, code] ∧
    encode_msg 7 (some [88]) ttb = some [0, 0, 0, 2, 7, 88] := by
  have h1 : (1 : Nat) < 2 ^ 31 := by norm_num
  refine ⟨?_, fromBE4_be4 _ (by omega), by simp [be4], ?_, ?_⟩
  · have hd' : 1 + data.length < 2147483648 := by omega
    simp [encode_msg, serializeToString, pack_iB, hd, hd', hc]
  · norm_num [encode_msg, pack_iB, hc, be4]
  · cases ttb <;> rfl

/-- C8 witness: the frame-format theorem at kind 7, payload `"X"` (0x58). -/
theorem encode_msg_frame_format_witness :
    7 < 256 ∧ 1 + [88].length < 2 ^ 31 ∧
    encode_msg 7 (some [88]) false =
      some (be4 (1 + [88].length) ++ 7 :: [88]) :=
  ⟨by norm_num, by norm_num,
    (encode_msg_frame_format 7 [88] false (by norm_num) (by norm_num)).1⟩

/-- C9: `close` is idempotent on the connection state: a second consecutive
close changes nothing (and, the embedding being a total function, raises
nothing), and after any close the stream handle is absent. -/
theorem close_idempotent (c : Conn) :
    close (close c) = close c ∧ (close c).socket = none := by
  cases h : c.socket <;> simp [close, h]

/-- C10: in TTB mode `_parse_msg` decodes only the TS get-response and TS
put-response kinds — every other kind raises the TTB parse error before
any decode is attempted — and an allow-listed kind with an empty payload
yields no decoded body instead of failing. -/
theorem parse_msg_ttb_allowlist (code : Nat) (payload : List Nat)
    (hg : code ≠ MSG_CODE_TS_GET_RESP) (hp : code ≠ MSG_CODE_TS_PUT_RESP) :
    parse_msg code payload true = .err (.ttbCantParse code) ∧
    parse_msg MSG_CODE_TS_GET_RESP [] true = .ok none ∧
    parse_msg MSG_CODE_TS_PUT_RESP [] true = .ok none ∧
    (payload ≠ [] →
      parse_msg MSG_CODE_TS_GET_RESP payload true = .ok (some (.term payload)) ∧
      parse_msg MSG_CODE_TS_PUT_RESP payload true = .ok (some (.term payload))) := by
  refine ⟨by simp [parse_msg, hg, hp], rfl, rfl, ?_⟩
  intro hne
  cases payload with
  | nil => exact absurd rfl hne
  | cons a l => constructor <;> simp [parse_msg]

/-- C10 witness: the TTB allow-list theorem at the structured get-response
kind with a one-byte payload. -/
theorem parse_msg_ttb_allowlist_witness :
    parse_msg 10 [1] true = .err (.ttbCantParse 10) ∧
    parse_msg MSG_CODE_TS_GET_RESP [] true = .ok none ∧
    parse_msg MSG_CODE_TS_PUT_RESP [] true = .ok none ∧
    ([1] ≠ ([] : List Nat) →
      parse_msg MSG_CODE_TS_GET_RESP [1] true = .ok (some (.term [1])) ∧
      parse_msg MSG_CODE_TS_PUT_RESP [1] true = .ok (some (.term [1]))) :=
  parse_msg_ttb_allowlist 10 [1] (by decide) (by decide)

end RiakTcp
